import Mathlib

/-!
Verification development for the companion-ai-frontend conversation sync engine
(src/hooks/useConversationSync.ts) and chat orchestrator
(src/components/ChatInterface.tsx).

The synchronization hook is embedded shallowly: each remote operation's outcome
(user lookup, conversation insert, message-id read, upsert) is supplied by an
explicit environment, and a run of `syncMessages` is a pure function from the
engine's mutable refs (modelled as `SyncState`), the in-memory message list and
that environment to a new state together with the ordered list of remote
operations it issued and the console log lines it emitted.  JS `undefined`/`null`
are collapsed to `Option.none`, and JS string falsiness (`x || null`) is modelled
by `orNull`.
-/

namespace CompanionAI

/-- Sender of a chat message: the `"user" | "ai"` union of the TS `Message`
interface (useConversationSync.ts line 8). -/
inductive Sender where
  | user
  | ai
deriving DecidableEq

/-- In-memory chat message (useConversationSync.ts lines 5-12, ChatInterface.tsx
lines 14-20).  `isBoilerplate` models the optional flag with `undefined ↦ false`;
`response_id` is the optional continuation token; `timestamp` is an abstract
instant serialized by `toIso`. -/
structure Message where
  id : String
  content : String
  sender : Sender
  timestamp : Nat
  isBoilerplate : Bool
  response_id : Option String
deriving DecidableEq

/-- Abstract stand-in for `Date.prototype.toISOString`. -/
def toIso (t : Nat) : String := toString t

/-- `isBoilerplateMessage` (useConversationSync.ts line 20). -/
def isBoilerplateMessage (m : Message) : Bool := m.isBoilerplate

/-- JS `x || null` on an optional string: `undefined`, `null` and the falsy `""`
all collapse to `none`. -/
def orNull : Option String → Option String
  | some s => if s = "" then none else some s
  | none => none

/-- Row shape pushed to the remote `conversation_messages` store
(useConversationSync.ts lines 116-124). -/
structure MessageRow where
  id : String
  user_id : String
  conversation_id : String
  role : Sender
  content : String
  created_at : String
  response_id : Option String
deriving DecidableEq

/-- Row built from message `m` for user `uid` and conversation `convId`
(useConversationSync.ts lines 116-124). -/
def toRow (uid convId : String) (m : Message) : MessageRow :=
  { id := m.id
    user_id := uid
    conversation_id := convId
    role := m.sender
    content := m.content
    created_at := toIso m.timestamp
    response_id := orNull m.response_id }

/-- The engine's mutable refs (useConversationSync.ts lines 29-35).  The
`Set<string>` of synced ids is modelled as a list used only through membership. -/
structure SyncState where
  currentConversationId : Option String
  syncedMessageIds : List String
  isSyncing : Bool
  isInitialized : Bool
deriving DecidableEq

/-- Outcomes the remote store and auth context supply to one run of the engine:
`userUUID`/`isAuthenticated` from the auth context, `userLookup` the result of the
`users` select (`none` = no row / falsy id), `newConvId` the result of the
`conversations` insert (`none` = error), `remoteRead` the result of the
`conversation_messages` id select (`none` = failed read), and `upsertOk` whether
the upsert succeeds. -/
structure SyncEnv where
  userUUID : Option String
  isAuthenticated : Bool
  userLookup : Option String
  newConvId : Option String
  remoteRead : Option (List String)
  upsertOk : Bool
deriving DecidableEq

/-- One remote operation issued by the engine, in issue order.  Results are
recorded alongside for auditability. -/
inductive RemoteOp where
  | userSelect (authId : String)
  | userInsert (authId : String) (ok : Bool)
  | convInsert (user_id : Option String) (convId : Option String)
  | msgSelect (convId : String)
  | upsert (rows : List MessageRow) (ok : Bool)
deriving DecidableEq

/-- Result of running one engine operation: the new ref state, the ordered remote
operations issued, and the console log lines. -/
structure SyncOut where
  st : SyncState
  ops : List RemoteOp
  logs : List String
deriving DecidableEq

/-- `ensureConversationExists` (useConversationSync.ts lines 37-68): returns the
cached id if present; otherwise looks the user up and inserts a `conversations`
row (with the possibly-undefined `userRow?.id`), caching and returning the new id,
or `none` with an error log when the insert fails.  The `onConversationIdChange`
callback is outside the modelled state. -/
def ensureConversationExists (env : SyncEnv) (st : SyncState) :
    Option String × SyncState × List RemoteOp × List String :=
  match env.userUUID, env.isAuthenticated with
  | some u, true =>
    match st.currentConversationId with
    | some cid => (some cid, st, [], [])
    | none =>
      match env.newConvId with
      | none =>
        (none, st, [RemoteOp.userSelect u, RemoteOp.convInsert env.userLookup none],
          ["Failed to create conversation"])
      | some nid =>
        (some nid, { st with currentConversationId := some nid },
          [RemoteOp.userSelect u, RemoteOp.convInsert env.userLookup (some nid)], [])
  | _, _ => (none, st, [], [])

/-- `loadSyncedMessages` (useConversationSync.ts lines 70-78): reads the message
ids stored remotely for `convId` and replaces the synced-id set wholesale; when
the read fails (`data` is null) the cleared set stays empty. -/
def loadSyncedMessages (convId : String) (readResult : Option (List String))
    (st : SyncState) : SyncState × List RemoteOp :=
  ({ st with syncedMessageIds := readResult.getD [] }, [RemoteOp.msgSelect convId])

/-- The unsynced subset (useConversationSync.ts lines 98-101): messages whose id
is not in the synced-id set and that are not boilerplate. -/
def unsyncedOf (messages : List Message) (synced : List String) : List Message :=
  messages.filter (fun m => !synced.contains m.id && !isBoilerplateMessage m)

/-- `currentConversationIdRef.current || (await ensureConversationExists())`
(useConversationSync.ts lines 88-90). -/
def resolveConversationId (env : SyncEnv) (st : SyncState) :
    Option String × SyncState × List RemoteOp × List String :=
  match st.currentConversationId with
  | some cid => (some cid, st, [], [])
  | none => ensureConversationExists env st

/-- `syncMessages` (useConversationSync.ts lines 80-146) run to completion with
no interleaving: auth guard; re-entrancy guard dropping a non-forced call while
one is in flight; conversation-id resolution; one-time initialization of the
synced-id set; the unsynced filter with its empty-and-not-forced early return;
the user lookup; and the upsert, which on success marks the written ids synced
and on failure only logs.  Every exit path runs the `finally` that clears
`isSyncing`. -/
def syncMessages (env : SyncEnv) (st : SyncState) (messages : List Message)
    (force : Bool) : SyncOut :=
  match env.userUUID, env.isAuthenticated with
  | some u, true =>
    if st.isSyncing && !force then { st := st, ops := [], logs := [] }
    else
      match resolveConversationId env { st with isSyncing := true } with
      | (none, st1, ops1, logs1) =>
        { st := { st1 with isSyncing := false }, ops := ops1, logs := logs1 }
      | (some convId, st1, ops1, logs1) =>
        let initDone :=
          if !st1.isInitialized then
            let (stL, opsL) := loadSyncedMessages convId env.remoteRead st1
            ({ stL with isInitialized := true }, opsL)
          else (st1, [])
        let st2 := initDone.1
        let unsynced := unsyncedOf messages st2.syncedMessageIds
        if unsynced.isEmpty && !force then
          { st := { st2 with isSyncing := false }, ops := ops1 ++ initDone.2, logs := logs1 }
        else
          match env.userLookup with
          | none =>
            { st := { st2 with isSyncing := false }
              ops := ops1 ++ initDone.2 ++ [RemoteOp.userSelect u]
              logs := logs1 ++ ["User not found for syncing messages"] }
          | some uid =>
            let toInsert := unsynced.map (toRow uid convId)
            if toInsert.isEmpty then
              { st := { st2 with isSyncing := false }
                ops := ops1 ++ initDone.2 ++ [RemoteOp.userSelect u]
                logs := logs1 }
            else if env.upsertOk then
              { st := { st2 with
                        isSyncing := false,
                        syncedMessageIds := st2.syncedMessageIds ++ unsynced.map (fun m => m.id) }
                ops := ops1 ++ initDone.2 ++ [RemoteOp.userSelect u, RemoteOp.upsert toInsert true]
                logs := logs1 ++ ["Synced messages"] }
            else
              { st := { st2 with isSyncing := false }
                ops := ops1 ++ initDone.2 ++ [RemoteOp.userSelect u, RemoteOp.upsert toInsert false]
                logs := logs1 ++ ["Error upserting messages:"] }
  | _, _ => { st := st, ops := [], logs := [] }

/-- The mount/auth effect (useConversationSync.ts lines 156-160): whenever no
conversation id is cached and the user is authenticated, it drives
`ensureConversationExists` immediately, regardless of the message list. -/
def mountEffect (env : SyncEnv) (st : SyncState) : SyncOut :=
  if st.currentConversationId.isNone && env.userUUID.isSome && env.isAuthenticated then
    match ensureConversationExists env st with
    | (_, st1, ops, logs) => { st := st1, ops := ops, logs := logs }
  else { st := st, ops := [], logs := [] }

/-- The conversation-switch effect (useConversationSync.ts lines 162-187) run to
completion: when the externally supplied id differs from the cached one it awaits
a forced flush (when a previous conversation is active, the list is nonempty and
it has unsynced entries), then adopts the new id, resets initialization, clears
the synced-id set, and — when a new id is present — reloads the set for the new
conversation and marks initialization done.  `newId` models the `conversationId`
prop with `undefined ↦ none` (the JS `undefined !== null` distinction and string
falsiness are collapsed). -/
def switchEffect (env : SyncEnv) (loadResult : Option (List String))
    (newId : Option String) (st : SyncState) (messages : List Message) : SyncOut :=
  if newId = st.currentConversationId then { st := st, ops := [], logs := [] }
  else
    let flushed :=
      if st.currentConversationId.isSome && !messages.isEmpty then
        if !(unsyncedOf messages st.syncedMessageIds).isEmpty then
          syncMessages env st messages true
        else { st := st, ops := [], logs := [] }
      else { st := st, ops := [], logs := [] }
    let st2 : SyncState :=
      { flushed.st with
        currentConversationId := newId,
        isInitialized := false,
        syncedMessageIds := [] }
    match newId with
    | some nid =>
      match loadSyncedMessages nid loadResult st2 with
      | (st3, opsL) =>
        { st := { st3 with isInitialized := true }
          ops := flushed.ops ++ opsL
          logs := flushed.logs }
    | none => { st := st2, ops := flushed.ops, logs := flushed.logs }

/-!
Interleaved semantics of `syncMessages` (useConversationSync.ts lines 80-146).

JavaScript runs the body synchronously between `await` points; the awaited remote
operations resolve later, interleaved with other calls.  A suspended call is a
`SyncTask` holding its program counter (`TaskPC`, one constructor per `await` the
body can be parked on) and the locals captured so far; `machineStep` processes one
scheduler event: starting a call (which runs its synchronous prefix) or delivering
the result of one task's awaited operation (which runs the next synchronous
chunk).  The machine admits every interleaving the event loop can produce.
`SyncTask.superseded` is ghost state, never read by the semantics: it marks tasks
that were already in flight when a forced call proceeded, so that the spec's
cancellation guarantee can be stated. -/

/-- Program counter of a suspended `syncMessages` call: the awaited operation it
is parked on, with the locals it has computed. -/
inductive TaskPC where
  | ensureUser
  | ensureConv (uid : Option String)
  | load (convId : String)
  | userSel (convId : String) (unsynced : List Message)
  | upserting (convId : String) (unsynced : List Message) (rows : List MessageRow)
deriving DecidableEq

/-- One in-flight `syncMessages` call: its id, the ghost superseded mark, the
`force` argument and `messages` closure it captured, and its program counter. -/
structure SyncTask where
  tid : Nat
  superseded : Bool
  force : Bool
  msgs : List Message
  pc : TaskPC
deriving DecidableEq

/-- Whole-engine configuration for the interleaved semantics: the auth context,
the shared refs, the in-flight tasks, a fresh task id, and the completed upsert
writes, each tagged with whether the writing task had been superseded by a forced
call when it wrote (ghost). -/
structure MachineConfig where
  authId : Option String
  isAuthenticated : Bool
  st : SyncState
  tasks : List SyncTask
  nextTid : Nat
  writes : List (Bool × List MessageRow)
deriving DecidableEq

/-- Scheduler events: a new `syncMessages(force)` call against the current
`messages` prop, or the delivery of one awaited result to the task `tid`. -/
inductive MachineEv where
  | call (force : Bool) (msgs : List Message)
  | ensureUserRes (tid : Nat) (uid : Option String)
  | ensureConvRes (tid : Nat) (res : Option String)
  | loadRes (tid : Nat) (res : Option (List String))
  | userRes (tid : Nat) (uid : Option String)
  | upsertRes (tid : Nat) (ok : Bool)
deriving DecidableEq

/-- Remove task `tid` from the configuration, returning it. -/
def takeTask (cfg : MachineConfig) (tid : Nat) :
    Option (SyncTask × MachineConfig) :=
  match cfg.tasks.find? (fun t => t.tid == tid) with
  | none => none
  | some t => some (t, { cfg with tasks := cfg.tasks.filter (fun u => u.tid != tid) })

/-- Synchronous chunk from the unsynced filter (lines 98-103): either the
empty-and-not-forced early return (running the `finally`) or suspension at the
user lookup.  The running task `t` is not in `cfg.tasks`. -/
def contFilter (cfg : MachineConfig) (t : SyncTask) (convId : String) :
    MachineConfig :=
  let unsynced := unsyncedOf t.msgs cfg.st.syncedMessageIds
  if unsynced.isEmpty && !t.force then
    { cfg with st := { cfg.st with isSyncing := false } }
  else
    { cfg with tasks := cfg.tasks ++ [{ t with pc := TaskPC.userSel convId unsynced }] }

/-- Synchronous chunk once the conversation id is known (lines 91-103): the
one-time initialization check (suspending at the id read) or straight to the
unsynced filter. -/
def contAfterConv (cfg : MachineConfig) (t : SyncTask) (convId : String) :
    MachineConfig :=
  if !cfg.st.isInitialized then
    { cfg with tasks := cfg.tasks ++ [{ t with pc := TaskPC.load convId }] }
  else
    contFilter cfg t convId

/-- Finish the running task: only the `finally` (line 144) remains, clearing the
shared `isSyncing` flag. -/
def finishTask (cfg : MachineConfig) : MachineConfig :=
  { cfg with st := { cfg.st with isSyncing := false } }

/-- One scheduler step of the interleaved engine.  A `call` event runs the guards
(lines 82-85) and the synchronous prefix up to the first awaited operation; when a
forced call proceeds while a sync is in flight, the tasks already in flight are
ghost-marked superseded.  A result event resumes the matching task with the next
synchronous chunk; events whose task or program counter does not match are
ignored. -/
def machineStep (cfg : MachineConfig) (ev : MachineEv) : MachineConfig :=
  match ev with
  | MachineEv.call force msgs =>
    match cfg.authId, cfg.isAuthenticated with
    | some _, true =>
      if cfg.st.isSyncing && !force then cfg
      else
        let marked :=
          if force && cfg.st.isSyncing then
            cfg.tasks.map (fun u => { u with superseded := true })
          else cfg.tasks
        let t : SyncTask :=
          { tid := cfg.nextTid, superseded := false, force := force,
            msgs := msgs, pc := TaskPC.ensureUser }
        let cfg1 := { cfg with
          st := { cfg.st with isSyncing := true },
          tasks := marked,
          nextTid := cfg.nextTid + 1 }
        match cfg1.st.currentConversationId with
        | none => { cfg1 with tasks := cfg1.tasks ++ [t] }
        | some cid => contAfterConv cfg1 t cid
    | _, _ => cfg
  | MachineEv.ensureUserRes tid uid =>
    match takeTask cfg tid with
    | some (t, cfg1) =>
      match t.pc with
      | TaskPC.ensureUser =>
        { cfg1 with tasks := cfg1.tasks ++ [{ t with pc := TaskPC.ensureConv uid }] }
      | _ => cfg
    | none => cfg
  | MachineEv.ensureConvRes tid res =>
    match takeTask cfg tid with
    | some (t, cfg1) =>
      match t.pc with
      | TaskPC.ensureConv _ =>
        match res with
        | none => finishTask cfg1
        | some nid =>
          contAfterConv
            { cfg1 with st := { cfg1.st with currentConversationId := some nid } } t nid
      | _ => cfg
    | none => cfg
  | MachineEv.loadRes tid res =>
    match takeTask cfg tid with
    | some (t, cfg1) =>
      match t.pc with
      | TaskPC.load cid =>
        contFilter
          { cfg1 with st := { cfg1.st with
            syncedMessageIds := res.getD [], isInitialized := true } } t cid
      | _ => cfg
    | none => cfg
  | MachineEv.userRes tid uid =>
    match takeTask cfg tid with
    | some (t, cfg1) =>
      match t.pc with
      | TaskPC.userSel cid unsynced =>
        match uid with
        | none => finishTask cfg1
        | some u =>
          let rows := unsynced.map (toRow u cid)
          if rows.isEmpty then finishTask cfg1
          else
            { cfg1 with tasks :=
                cfg1.tasks ++ [{ t with pc := TaskPC.upserting cid unsynced rows }] }
      | _ => cfg
    | none => cfg
  | MachineEv.upsertRes tid ok =>
    match takeTask cfg tid with
    | some (t, cfg1) =>
      match t.pc with
      | TaskPC.upserting _ unsynced rows =>
        if ok then
          { cfg1 with
            st := { cfg1.st with
              isSyncing := false,
              syncedMessageIds := cfg1.st.syncedMessageIds ++ unsynced.map (fun m => m.id) },
            writes := cfg1.writes ++ [(t.superseded, rows)] }
        else finishTask cfg1
      | _ => cfg
    | none => cfg

/-- Run a sequence of scheduler events. -/
def runTrace (cfg : MachineConfig) (evs : List MachineEv) : MachineConfig :=
  evs.foldl machineStep cfg

/-- The cancellation guarantee C1 claims for a trace: no task that was in flight
when a forced call proceeded ever completes a write afterwards. -/
def cancellationProp (cfg : MachineConfig) (evs : List MachineEv) : Prop :=
  (runTrace cfg evs).writes.all (fun w => !w.1) = true

/-!
Chat orchestrator: `handleSendMessage` (ChatInterface.tsx lines 297-359). -/

/-- Message reduced to `{content, sender}` for the completion request
(ChatInterface.tsx lines 316-321). -/
structure SimplifiedMessage where
  content : String
  sender : Sender
deriving DecidableEq

/-- Body of the one `POST /query` request (ChatInterface.tsx lines 330-334). -/
structure QueryRequest where
  user_input : String
  message_history : List SimplifiedMessage
  previous_response_id : Option String
deriving DecidableEq

/-- Successful completion-endpoint response (ChatInterface.tsx lines 336-342). -/
structure QueryResponse where
  response : String
  response_id : Option String
deriving DecidableEq

/-- `Array.prototype.slice(-n)`: the last at most `n` entries. -/
def sliceLast (n : Nat) (l : List SimplifiedMessage) : List SimplifiedMessage :=
  l.drop (l.length - n)

/-- Projection to `{content, sender}` (ChatInterface.tsx lines 317-320). -/
def simplifyMessage (m : Message) : SimplifiedMessage :=
  { content := m.content, sender := m.sender }

/-- Continuation token of the most recent non-boilerplate assistant message
(ChatInterface.tsx lines 323-327): `messages.filter(ai and not boilerplate)
.slice(-1)[0]?.response_id || null`, with JS falsiness collapsing a missing or
empty token to `none`. -/
def lastAiResponseId (messages : List Message) : Option String :=
  match (messages.filter
      (fun m => m.sender == Sender.ai && !m.isBoilerplate)).getLast? with
  | some m => orNull m.response_id
  | none => none

/-- The apology fallback content appended when the completion call rejects
(ChatInterface.tsx lines 348-354). -/
def apologyText : String :=
  "I apologize, but I\x27m having trouble connecting right now. Please try again in a moment."

/-- `String.prototype.trim`: strip leading and trailing whitespace
(ChatInterface.tsx line 298). -/
def trimString (s : String) : String :=
  String.mk
    (((s.data.dropWhile Char.isWhitespace).reverse.dropWhile
        Char.isWhitespace).reverse)

/-- Result of one `handleSendMessage` run: the request issued to the completion
endpoint (if any), and the new component state. -/
structure SendOut where
  request : Option QueryRequest
  messages : List Message
  inputMessage : String
  isLoading : Bool
deriving DecidableEq

/-- `handleSendMessage` (ChatInterface.tsx lines 297-359) run to completion:
rejects blank-after-trim input and re-entry while loading; otherwise appends the
optimistic user message, issues exactly one request carrying the raw input, the
last at-most-20 prior messages reduced to `{content, sender}`, and the previous
continuation token; then appends either the assistant reply carrying the returned
`response_id` or the apology fallback.  `newMsgId`/`botMsgId` and `now`/`botNow`
model the two `crypto.randomUUID()` and `new Date()` calls; `apiResult = none`
models a rejected request.  The localStorage draft bookkeeping is outside the
modelled state. -/
def handleSendMessage (inputMessage : String) (isLoading : Bool)
    (messages : List Message) (newMsgId : String) (now : Nat)
    (apiResult : Option QueryResponse) (botMsgId : String) (botNow : Nat) :
    SendOut :=
  if trimString inputMessage = "" ∨ isLoading = true then
    { request := none, messages := messages,
      inputMessage := inputMessage, isLoading := isLoading }
  else
    let newUserMessage : Message :=
      { id := newMsgId, content := inputMessage, sender := Sender.user,
        timestamp := now, isBoilerplate := false, response_id := none }
    let req : QueryRequest :=
      { user_input := newUserMessage.content,
        message_history := sliceLast 20 (messages.map simplifyMessage),
        previous_response_id := lastAiResponseId messages }
    match apiResult with
    | some resp =>
      let botResponse : Message :=
        { id := botMsgId, content := resp.response, sender := Sender.ai,
          timestamp := botNow, isBoilerplate := false,
          response_id := orNull resp.response_id }
      { request := some req,
        messages := messages ++ [newUserMessage, botResponse],
        inputMessage := "", isLoading := false }
    | none =>
      let errorMessage : Message :=
        { id := botMsgId, content := apologyText, sender := Sender.ai,
          timestamp := botNow, isBoilerplate := false, response_id := none }
      { request := some req,
        messages := messages ++ [newUserMessage, errorMessage],
        inputMessage := "", isLoading := false }

/-!
Legacy revision of the sync engine: the second document in
src/hooks/useConversationSync.ts (lines 245-626 of the concatenated file).  Its
`syncMessages` additionally checks which of the candidate ids already exist
remotely before upserting, and gates conversation creation on a real message
existing.  Claims C3 and C4 cite this revision alongside the current one, so it
is embedded too.  Its rows carry no `response_id` column (lines 462-469). -/

namespace Legacy

/-- Remote outcomes for one legacy run: `existingUser` is the first `users`
select, `userInsertOk` the `users` insert, `secondUserLookup` the nested `users`
select inside the conversation insert, `convInsertId` the `conversations` insert
result, `initRead` the initialization id read, `userLookup` the `users` select of
`syncMessages`, `existingRead` the already-present id check (`none` = error). -/
structure LegacyEnv where
  userUUID : Option String
  isAuthenticated : Bool
  existingUser : Option String
  userInsertOk : Bool
  secondUserLookup : Option String
  convInsertId : Option String
  initRead : Option (List String)
  userLookup : Option String
  existingRead : Option (List String)
  upsertOk : Bool
deriving DecidableEq

/-- The legacy revision's refs (lines 271-278), including the write-only
`lastSyncedCountRef`. -/
structure LegacyState where
  currentConversationId : Option String
  syncedMessageIds : List String
  isSyncing : Bool
  isInitialized : Bool
  lastSyncedCount : Nat
deriving DecidableEq

/-- Legacy rows carry no `response_id` (lines 462-469). -/
def toRow (uid convId : String) (m : Message) : MessageRow :=
  { id := m.id
    user_id := uid
    conversation_id := convId
    role := m.sender
    content := m.content
    created_at := toIso m.timestamp
    response_id := none }

/-- Legacy `ensureConversationExists` (lines 281-341): returns the cached id if
present; otherwise checks for the `users` row, creating it when missing, then
inserts a `conversations` row whose `user_id` is the existing row's id or the
result of a second lookup, caching and returning the new id; every error path
returns `none`. -/
def ensureConversationExists (env : LegacyEnv) (st : LegacyState) :
    Option String × LegacyState × List RemoteOp :=
  match env.userUUID, env.isAuthenticated with
  | some u, true =>
    match st.currentConversationId with
    | some cid => (some cid, st, [])
    | none =>
      match env.existingUser with
      | some uidRow =>
        match env.convInsertId with
        | none =>
          (none, st, [RemoteOp.userSelect u, RemoteOp.convInsert (some uidRow) none])
        | some nid =>
          (some nid, { st with currentConversationId := some nid },
            [RemoteOp.userSelect u, RemoteOp.convInsert (some uidRow) (some nid)])
      | none =>
        if !env.userInsertOk then
          (none, st, [RemoteOp.userSelect u, RemoteOp.userInsert u false])
        else
          match env.convInsertId with
          | none =>
            (none, st,
              [RemoteOp.userSelect u, RemoteOp.userInsert u true, RemoteOp.userSelect u,
                RemoteOp.convInsert env.secondUserLookup none])
          | some nid =>
            (some nid, { st with currentConversationId := some nid },
              [RemoteOp.userSelect u, RemoteOp.userInsert u true, RemoteOp.userSelect u,
                RemoteOp.convInsert env.secondUserLookup (some nid)])
  | _, _ => (none, st, [])

/-- Legacy `initializeSyncedMessages` (lines 344-381): once per conversation,
reads which of the current message ids already exist remotely (the `.in`
constraint is modelled by filtering the read result to the current ids) and marks
them synced; a failed read marks nothing; initialization is recorded as done on
every path past conversation resolution. -/
def initializeSyncedMessages (env : LegacyEnv) (st : LegacyState)
    (messages : List Message) : LegacyState × List RemoteOp :=
  match env.userUUID, env.isAuthenticated with
  | some _, true =>
    if st.isInitialized then (st, [])
    else
      let ensured := ensureConversationExists env st
      let st1 := ensured.2.1
      let ops1 := ensured.2.2
      match ensured.1 with
      | none => (st1, ops1)
      | some cid =>
        if messages.isEmpty then ({ st1 with isInitialized := true }, ops1)
        else
          let found := (env.initRead.getD []).filter
            (fun i => (messages.map (fun m => m.id)).contains i)
          ({ st1 with
              isInitialized := true,
              syncedMessageIds := st1.syncedMessageIds ++ found },
            ops1 ++ [RemoteOp.msgSelect cid])
  | _, _ => (st, [])

/-- Legacy `syncMessages` (lines 384-499) run to completion: guards (including
the empty-list guard), lazy initialization, the unsynced filter with its early
return, the real-message gate that skips conversation creation when only
boilerplate exists, conversation resolution, user lookup, the already-present id
check (whose ids are always marked synced), and the upsert of the remaining new
messages, marking them synced on success.  Every path past the guards clears
`isSyncing` on exit. -/
def syncMessages (env : LegacyEnv) (st : LegacyState) (messages : List Message)
    (force : Bool) : LegacyState × List RemoteOp :=
  match env.userUUID, env.isAuthenticated with
  | some u, true =>
    if messages.isEmpty then (st, [])
    else if st.isSyncing && !force then (st, [])
    else
      let initDone :=
        if !st.isInitialized then initializeSyncedMessages env st messages
        else (st, [])
      let stA := initDone.1
      let messagesToSync := unsyncedOf messages stA.syncedMessageIds
      if messagesToSync.isEmpty && !force then (stA, initDone.2)
      else
        let stB := { stA with isSyncing := true }
        if !(messages.any (fun m => !isBoilerplateMessage m)) then
          ({ stB with isSyncing := false }, initDone.2)
        else
          let ensured := ensureConversationExists env stB
          let stC := ensured.2.1
          let opsC := ensured.2.2
          match ensured.1 with
          | none => ({ stC with isSyncing := false }, initDone.2 ++ opsC)
          | some cid =>
            match env.userLookup with
            | none =>
              ({ stC with isSyncing := false },
                initDone.2 ++ opsC ++ [RemoteOp.userSelect u])
            | some uid =>
              match env.existingRead with
              | none =>
                ({ stC with isSyncing := false },
                  initDone.2 ++ opsC ++ [RemoteOp.userSelect u, RemoteOp.msgSelect cid])
              | some existingRaw =>
                let msgIds := messagesToSync.map (fun m => m.id)
                let existingIds := existingRaw.filter (fun i => msgIds.contains i)
                let stD := { stC with
                  syncedMessageIds := stC.syncedMessageIds ++ existingIds }
                let newMessagesToSync :=
                  messagesToSync.filter (fun m => !existingIds.contains m.id)
                if newMessagesToSync.isEmpty then
                  ({ stD with isSyncing := false, lastSyncedCount := messages.length },
                    initDone.2 ++ opsC ++ [RemoteOp.userSelect u, RemoteOp.msgSelect cid])
                else
                  let rows := newMessagesToSync.map (Legacy.toRow uid cid)
                  if env.upsertOk then
                    ({ stD with
                        isSyncing := false,
                        syncedMessageIds :=
                          stD.syncedMessageIds ++ newMessagesToSync.map (fun m => m.id),
                        lastSyncedCount := messages.length },
                      initDone.2 ++ opsC ++
                        [RemoteOp.userSelect u, RemoteOp.msgSelect cid,
                          RemoteOp.upsert rows true])
                  else
                    ({ stD with isSyncing := false },
                      initDone.2 ++ opsC ++
                        [RemoteOp.userSelect u, RemoteOp.msgSelect cid,
                          RemoteOp.upsert rows false])
  | _, _ => (st, [])

end Legacy

/-!
Concrete fixtures used by witnesses and counterexamples. -/

/-- A real (non-boilerplate) user message. -/
def mA : Message :=
  { id := "a", content := "hello", sender := Sender.user, timestamp := 1,
    isBoilerplate := false, response_id := none }

/-- A second real user message. -/
def mB : Message :=
  { id := "b", content := "again", sender := Sender.user, timestamp := 2,
    isBoilerplate := false, response_id := none }

/-- The synthetic welcome message (ChatInterface.tsx lines 136-145). -/
def welcomeMsg : Message :=
  { id := "w",
    content := "Welcome to Companion AI. How may I assist you on your faith journey today?",
    sender := Sender.ai, timestamp := 0, isBoilerplate := true, response_id := none }

/-!
Helper lemmas. -/

/-- Against an empty synced-id set, the unsynced subset is exactly the
non-boilerplate messages. -/
theorem unsyncedOf_nil (messages : List Message) :
    unsyncedOf messages [] = messages.filter (fun m => !isBoilerplateMessage m) := by
  simp [unsyncedOf]

/-- C10.  `loadSyncedMessages` replaces the synced-id set wholesale with exactly
the ids the remote read returned — in particular a failed read (`none`) leaves it
empty — and consequently, in a sync whose initialization read fails, every
non-boilerplate in-memory message is treated as unsynced and the issued upsert
(keyed by id, hence idempotent) contains exactly all of them. -/
theorem c10_load_replaces_wholesale :
    (∀ (convId : String) (readResult : Option (List String)) (st : SyncState),
      (loadSyncedMessages convId readResult st).1.syncedMessageIds = readResult.getD [])
    ∧ (∀ (env : SyncEnv) (st : SyncState) (messages : List Message)
        (cid u uid : String) (force : Bool),
        env.userUUID = some u → env.isAuthenticated = true →
        env.userLookup = some uid → env.remoteRead = none →
        st.currentConversationId = some cid → st.isInitialized = false →
        st.isSyncing = false →
        messages.filter (fun m => !isBoilerplateMessage m) ≠ [] →
        RemoteOp.upsert
          ((messages.filter (fun m => !isBoilerplateMessage m)).map (toRow uid cid))
          env.upsertOk ∈ (syncMessages env st messages force).ops) := by
  constructor
  · intro convId readResult st
    rfl
  · intro env st messages cid u uid force h1 h2 h3 h4 h5 h6 h7 h8
    obtain ⟨uu, auth, lookup, nconv, rread, upok⟩ := env
    obtain ⟨cur, synced, syncing, init⟩ := st
    simp only at h1 h2 h3 h4 h5 h6 h7
    subst h1 h2 h3 h4 h5 h6 h7
    have hne : (messages.filter (fun m => !isBoilerplateMessage m)).isEmpty = false := by
      cases hh : (messages.filter (fun m => !isBoilerplateMessage m)).isEmpty
      · rfl
      · exact absurd (List.isEmpty_iff.mp hh) h8
    have hne2 : ((messages.filter (fun m => !isBoilerplateMessage m)).map
        (toRow uid cid)).isEmpty = false := by
      simpa using hne
    cases upok <;>
      simp [syncMessages, resolveConversationId, loadSyncedMessages,
        unsyncedOf_nil, hne, hne2]

/-- Witness for C10 at a concrete input. -/
theorem c10_witness :
    RemoteOp.upsert [toRow "uid0" "conv0" mA] true ∈
      (syncMessages
        { userUUID := some "auth0", isAuthenticated := true, userLookup := some "uid0",
          newConvId := none, remoteRead := none, upsertOk := true }
        { currentConversationId := some "conv0", syncedMessageIds := ["stale"],
          isSyncing := false, isInitialized := false }
        [mA] false).ops := by
  have h := c10_load_replaces_wholesale.2
    { userUUID := some "auth0", isAuthenticated := true, userLookup := some "uid0",
      newConvId := none, remoteRead := none, upsertOk := true }
    { currentConversationId := some "conv0", syncedMessageIds := ["stale"],
      isSyncing := false, isInitialized := false }
    [mA] "conv0" "auth0" "uid0" false rfl rfl rfl rfl rfl rfl rfl (by decide)
  simpa [mA] using h

/-- When the unsynced filter comes back empty, every non-boilerplate message id
is already in the synced-id set. -/
theorem mem_synced_of_unsynced_nil {messages : List Message} {S : List String}
    (h : unsyncedOf messages S = []) :
    ∀ m ∈ messages, m.isBoilerplate = false → m.id ∈ S := by
  intro m hm hb
  have hp := List.filter_eq_nil_iff.mp h m hm
  simpa [isBoilerplateMessage, hb] using hp

/-- Appending the unsynced ids to the synced-id set covers every non-boilerplate
message. -/
theorem contains_append_unsynced {messages : List Message} {S : List String}
    (m : Message) (hm : m ∈ messages) (hb : m.isBoilerplate = false) :
    m.id ∈ S ++ (unsyncedOf messages S).map (fun x => x.id) := by
  by_cases hc : m.id ∈ S
  · exact List.mem_append.mpr (Or.inl hc)
  · have hmem : m ∈ unsyncedOf messages S := by
      refine List.mem_filter.mpr ⟨hm, ?_⟩
      simp [isBoilerplateMessage, hb]
      simpa using hc
    exact List.mem_append.mpr (Or.inr (List.mem_map.mpr ⟨m, hmem, rfl⟩))

/-- Core of C3 for the current revision: a `syncMessages` run that is not dropped
by the re-entrancy guard and whose remote operations succeed leaves every
non-boilerplate message id in the synced-id set. -/
theorem syncMessages_marks_all (env : SyncEnv) (st : SyncState)
    (messages : List Message) (cid u uid : String) (force : Bool)
    (h1 : env.userUUID = some u) (h2 : env.isAuthenticated = true)
    (h3 : env.userLookup = some uid) (h4 : env.upsertOk = true)
    (h5 : st.currentConversationId = some cid ∨
          (st.currentConversationId = none ∧ env.newConvId = some cid))
    (h0 : st.isSyncing = false ∨ force = true) :
    ∀ m ∈ messages, m.isBoilerplate = false →
      (syncMessages env st messages force).st.syncedMessageIds.contains m.id = true := by
  intro m hm hb
  obtain ⟨uu, auth, lookup, nconv, rread, upok⟩ := env
  obtain ⟨cur, synced, syncing, init⟩ := st
  simp only at h1 h2 h3 h4
  subst h1 h2 h3 h4
  have hguard : (syncing && !force) = false := by
    rcases h0 with h0 | h0 <;> (try simp only at h0) <;> subst h0 <;> simp
  rcases h5 with h5 | ⟨h5a, h5b⟩ <;>
    [(simp only at h5; subst h5);
     (simp only at h5a h5b; subst h5a; subst h5b)] <;>
  cases init <;>
    simp [syncMessages, resolveConversationId, ensureConversationExists,
      loadSyncedMessages, hguard] <;>
    (try split) <;>
    (try split) <;>
    rename_i hc <;>
    first
      | exact mem_synced_of_unsynced_nil hc m hm hb
      | exact mem_synced_of_unsynced_nil hc.1 m hm hb
      | exact mem_synced_of_unsynced_nil (List.isEmpty_iff.mp hc) m hm hb
      | exact contains_append_unsynced m hm hb

/-- Each non-boilerplate message id is in the pre-sync set, among the ids found
already present, or among the ids of the remaining newly upserted messages. -/
theorem legacy_marks_core (S existingIds : List String) (messages : List Message)
    (m : Message) (hm : m ∈ messages) (hb : m.isBoilerplate = false) :
    m.id ∈ S ∨ m.id ∈ existingIds ∨
      m.id ∈ ((unsyncedOf messages S).filter
        (fun x => !existingIds.contains x.id)).map (fun x => x.id) := by
  by_cases hS : m.id ∈ S
  · exact Or.inl hS
  · have hmem : m ∈ unsyncedOf messages S := by
      refine List.mem_filter.mpr ⟨hm, ?_⟩
      simp [isBoilerplateMessage, hb]
      simpa using hS
    by_cases hE : m.id ∈ existingIds
    · exact Or.inr (Or.inl hE)
    · refine Or.inr (Or.inr (List.mem_map.mpr ⟨m, List.mem_filter.mpr ⟨hmem, ?_⟩, rfl⟩))
      simpa using hE

/-- When no new message remains to upsert, each non-boilerplate message id is in
the pre-sync set or among the ids found already present. -/
theorem legacy_marks_core_empty (S existingIds : List String)
    (messages : List Message)
    (h : (unsyncedOf messages S).filter (fun x => !existingIds.contains x.id) = [])
    (m : Message) (hm : m ∈ messages) (hb : m.isBoilerplate = false) :
    m.id ∈ S ∨ m.id ∈ existingIds := by
  by_cases hS : m.id ∈ S
  · exact Or.inl hS
  · have hmem : m ∈ unsyncedOf messages S := by
      refine List.mem_filter.mpr ⟨hm, ?_⟩
      simp [isBoilerplateMessage, hb]
      simpa using hS
    have hp := List.filter_eq_nil_iff.mp h m hmem
    simp at hp
    exact Or.inr hp

/-- A non-boilerplate message whose id is not in the synced-id set is in the
unsynced subset. -/
theorem mem_unsyncedOf {messages : List Message} {S : List String} {m : Message}
    (hm : m ∈ messages) (hb : m.isBoilerplate = false) (hS : m.id ∉ S) :
    m ∈ unsyncedOf messages S := by
  refine List.mem_filter.mpr ⟨hm, ?_⟩
  simp [isBoilerplateMessage, hb]
  simpa using hS

/-- Specialization of `mem_unsyncedOf` to an appended synced-id set. -/
theorem mem_unsynced_append (messages : List Message) (synced extra : List String)
    {m : Message} (hm : m ∈ messages) (hb : m.isBoilerplate = false)
    (h1 : m.id ∉ synced) (h2 : m.id ∉ extra) :
    m ∈ unsyncedOf messages (synced ++ extra) := by
  refine mem_unsyncedOf hm hb ?_
  simp [h1, h2]

/-- Core of C3 for the legacy revision: a forced legacy `syncMessages` run whose
remote operations succeed leaves every non-boilerplate message id in the
synced-id set. -/
theorem legacy_syncMessages_marks_all (env : Legacy.LegacyEnv)
    (st : Legacy.LegacyState) (messages : List Message) (cid u uid : String)
    (raw : List String)
    (h1 : env.userUUID = some u) (h2 : env.isAuthenticated = true)
    (h3 : env.userLookup = some uid) (h4 : env.upsertOk = true)
    (h5 : st.currentConversationId = some cid)
    (h6 : env.existingRead = some raw) :
    ∀ m ∈ messages, m.isBoilerplate = false →
      m.id ∈ (Legacy.syncMessages env st messages true).1.syncedMessageIds := by
  intro m hm hb
  obtain ⟨uu, auth, exu, uiok, slk, cvi, ird, lkp, exr, upok⟩ := env
  obtain ⟨cur, synced, syncing, init, lastc⟩ := st
  simp only at h1 h2 h3 h4 h5 h6
  subst h1 h2 h3 h4 h5 h6
  have hne : messages.isEmpty = false := by
    cases messages
    · cases hm
    · rfl
  have hreal : messages.any (fun x => !isBoilerplateMessage x) = true :=
    List.any_eq_true.mpr ⟨m, hm, by simp [isBoilerplateMessage, hb]⟩
  cases init <;>
    simp [Legacy.syncMessages, Legacy.initializeSyncedMessages,
      Legacy.ensureConversationExists, hne, hreal] <;>
    split
  case false.isTrue hc =>
    simp
    by_cases hA : m.id ∈ synced
    · exact Or.inl hA
    by_cases hB : m.id ∈ ird.getD []
    · exact Or.inr (Or.inl ⟨hB, m, hm, rfl⟩)
    refine Or.inr (Or.inr (hc m ?_))
    exact mem_unsynced_append messages synced _ hm hb hA
      (fun hmem => hB (List.mem_of_mem_filter hmem))
  case false.isFalse hc =>
    simp
    by_cases hA : m.id ∈ synced
    · exact Or.inl hA
    by_cases hB : m.id ∈ ird.getD []
    · exact Or.inr (Or.inl ⟨hB, m, hm, rfl⟩)
    by_cases hC : m.id ∈ raw
    · refine Or.inr (Or.inr (Or.inl ⟨hC, m, ?_, rfl⟩))
      exact mem_unsynced_append messages synced _ hm hb hA
        (fun hmem => hB (List.mem_of_mem_filter hmem))
    · refine Or.inr (Or.inr (Or.inr ⟨m, ⟨?_, Or.inl hC⟩, rfl⟩))
      exact mem_unsynced_append messages synced _ hm hb hA
        (fun hmem => hB (List.mem_of_mem_filter hmem))
  case true.isTrue hc =>
    simp
    by_cases hA : m.id ∈ synced
    · exact Or.inl hA
    exact Or.inr (hc m (mem_unsyncedOf hm hb hA))
  case true.isFalse hc =>
    simp
    by_cases hA : m.id ∈ synced
    · exact Or.inl hA
    by_cases hC : m.id ∈ raw
    · exact Or.inr (Or.inl ⟨hC, m, mem_unsyncedOf hm hb hA, rfl⟩)
    · exact Or.inr (Or.inr ⟨m, ⟨mem_unsyncedOf hm hb hA, Or.inl hC⟩, rfl⟩)

/-- A `syncMessages` run never changes a cached conversation id. -/
theorem syncMessages_preserves_conv (env : SyncEnv) (st : SyncState)
    (messages : List Message) (force : Bool) (cid : String)
    (hcur : st.currentConversationId = some cid) :
    (syncMessages env st messages force).st.currentConversationId = some cid := by
  obtain ⟨uu, auth, lookup, nconv, rread, upok⟩ := env
  obtain ⟨cur, synced, syncing, init⟩ := st
  simp only at hcur
  subst hcur
  cases uu <;> cases auth <;> cases lookup <;> cases init <;> cases upok <;>
    simp [syncMessages, resolveConversationId, loadSyncedMessages] <;>
    (try split) <;> (try split) <;> (try split) <;> rfl

/-- A `syncMessages` run that passes the guards with a cached conversation id
leaves the engine initialized. -/
theorem syncMessages_initialized (env : SyncEnv) (st : SyncState)
    (messages : List Message) (force : Bool) (cid u : String)
    (hcur : st.currentConversationId = some cid)
    (h1 : env.userUUID = some u) (h2 : env.isAuthenticated = true)
    (h0 : st.isSyncing = false ∨ force = true) :
    (syncMessages env st messages force).st.isInitialized = true := by
  obtain ⟨uu, auth, lookup, nconv, rread, upok⟩ := env
  obtain ⟨cur, synced, syncing, init⟩ := st
  simp only at hcur h1 h2
  subst hcur h1 h2
  have hguard : (syncing && !force) = false := by
    rcases h0 with h0 | h0 <;> (try simp only at h0) <;> subst h0 <;> simp
  cases lookup <;> cases init <;> cases upok <;>
    simp [syncMessages, resolveConversationId, loadSyncedMessages, hguard] <;>
    (try split) <;> (try split) <;> rfl

/-- With an initialized engine, a cached conversation id and an empty unsynced
subset, a `syncMessages` run issues no upsert at all. -/
theorem no_upsert_when_all_synced (env : SyncEnv) (st : SyncState)
    (messages : List Message) (force : Bool) (cid : String)
    (hcur : st.currentConversationId = some cid)
    (hinit : st.isInitialized = true)
    (h : unsyncedOf messages st.syncedMessageIds = []) :
    ∀ rows ok, RemoteOp.upsert rows ok ∉ (syncMessages env st messages force).ops := by
  intro rows ok
  obtain ⟨uu, auth, lookup, nconv, rread, upok⟩ := env
  obtain ⟨cur, synced, syncing, init⟩ := st
  simp only at hcur hinit h
  subst hcur hinit
  cases uu <;> cases auth <;> cases lookup <;> cases force <;> cases syncing <;>
    simp [syncMessages, resolveConversationId, h]

/-- C3.  For every message list, after a forced `syncMessages` call whose remote
upsert succeeds (the auth context, conversation resolution and user lookup
supplying the values the upsert path needs), the id of every non-boilerplate
message in the list is a member of the synced-id set — in the current revision
and in the legacy revision cited alongside it. -/
theorem c3_forced_sync_marks_all_nonboilerplate :
    (∀ (env : SyncEnv) (st : SyncState) (messages : List Message) (cid u uid : String),
      env.userUUID = some u → env.isAuthenticated = true →
      env.userLookup = some uid → env.upsertOk = true →
      (st.currentConversationId = some cid ∨
        (st.currentConversationId = none ∧ env.newConvId = some cid)) →
      ∀ m ∈ messages, m.isBoilerplate = false →
        (syncMessages env st messages true).st.syncedMessageIds.contains m.id = true)
    ∧ (∀ (env : Legacy.LegacyEnv) (st : Legacy.LegacyState) (messages : List Message)
        (cid u uid : String) (raw : List String),
      env.userUUID = some u → env.isAuthenticated = true →
      env.userLookup = some uid → env.upsertOk = true →
      st.currentConversationId = some cid → env.existingRead = some raw →
      ∀ m ∈ messages, m.isBoilerplate = false →
        m.id ∈ (Legacy.syncMessages env st messages true).1.syncedMessageIds) :=
  ⟨fun env st messages cid u uid h1 h2 h3 h4 h5 =>
      syncMessages_marks_all env st messages cid u uid true h1 h2 h3 h4 h5 (Or.inr rfl),
    fun env st messages cid u uid raw h1 h2 h3 h4 h5 h6 =>
      legacy_syncMessages_marks_all env st messages cid u uid raw h1 h2 h3 h4 h5 h6⟩

/-- Witness for C3 at a concrete input: after a forced successful sync of one real
message next to the boilerplate welcome, the real id is marked synced. -/
theorem c3_witness :
    (syncMessages
      { userUUID := some "authU", isAuthenticated := true, userLookup := some "uid1",
        newConvId := none, remoteRead := some [], upsertOk := true }
      { currentConversationId := some "conv1", syncedMessageIds := [],
        isSyncing := false, isInitialized := true }
      [welcomeMsg, mA] true).st.syncedMessageIds.contains mA.id = true := by
  exact c3_forced_sync_marks_all_nonboilerplate.1
    { userUUID := some "authU", isAuthenticated := true, userLookup := some "uid1",
      newConvId := none, remoteRead := some [], upsertOk := true }
    { currentConversationId := some "conv1", syncedMessageIds := [],
      isSyncing := false, isInitialized := true }
    [welcomeMsg, mA] "conv1" "authU" "uid1" rfl rfl rfl rfl (Or.inl rfl)
    mA (by simp) rfl

/-- C5.  Invoking `syncMessages` twice in succession with no messages appended in
between performs zero remote writes on the second call: after a first call that
succeeds, the unsynced subset is empty, and the second call — whatever its
environment and force flag — issues no upsert at all. -/
theorem c5_second_sync_issues_no_write (env1 env2 : SyncEnv) (st : SyncState)
    (messages : List Message) (force1 force2 : Bool) (cid u uid : String)
    (h0 : st.isSyncing = false)
    (h1 : env1.userUUID = some u) (h2 : env1.isAuthenticated = true)
    (h3 : env1.userLookup = some uid) (h4 : env1.upsertOk = true)
    (h5 : st.currentConversationId = some cid) :
    unsyncedOf messages (syncMessages env1 st messages force1).st.syncedMessageIds = []
    ∧ ∀ rows ok, RemoteOp.upsert rows ok ∉
        (syncMessages env2 (syncMessages env1 st messages force1).st
          messages force2).ops := by
  have hmarks := syncMessages_marks_all env1 st messages cid u uid force1
    h1 h2 h3 h4 (Or.inl h5) (Or.inl h0)
  have hempty :
      unsyncedOf messages (syncMessages env1 st messages force1).st.syncedMessageIds
        = [] := by
    refine List.filter_eq_nil_iff.mpr ?_
    intro m hm
    cases hbb : m.isBoilerplate
    · have hmem : m.id ∈ (syncMessages env1 st messages force1).st.syncedMessageIds := by
        simpa using hmarks m hm hbb
      simp [isBoilerplateMessage, hbb, hmem]
    · simp [isBoilerplateMessage, hbb]
  exact ⟨hempty,
    no_upsert_when_all_synced env2 _ messages force2 cid
      (syncMessages_preserves_conv env1 st messages force1 cid h5)
      (syncMessages_initialized env1 st messages force1 cid u h5 h1 h2 (Or.inl h0))
      hempty⟩

/-- Witness for C5 at a concrete input: the second forced sync right after a
successful one issues no upsert. -/
theorem c5_witness :
    RemoteOp.upsert [toRow "uid1" "conv1" mA] true ∉
      (syncMessages
        { userUUID := some "authU", isAuthenticated := true, userLookup := some "uid1",
          newConvId := none, remoteRead := some [], upsertOk := true }
        (syncMessages
          { userUUID := some "authU", isAuthenticated := true, userLookup := some "uid1",
            newConvId := none, remoteRead := some [], upsertOk := true }
          { currentConversationId := some "conv1", syncedMessageIds := [],
            isSyncing := false, isInitialized := true }
          [mA] true).st
        [mA] true).ops := by
  exact (c5_second_sync_issues_no_write
    { userUUID := some "authU", isAuthenticated := true, userLookup := some "uid1",
      newConvId := none, remoteRead := some [], upsertOk := true }
    { userUUID := some "authU", isAuthenticated := true, userLookup := some "uid1",
      newConvId := none, remoteRead := some [], upsertOk := true }
    { currentConversationId := some "conv1", syncedMessageIds := [],
      isSyncing := false, isInitialized := true }
    [mA] true true "conv1" "authU" "uid1" rfl rfl rfl rfl rfl rfl).2
    [toRow "uid1" "conv1" mA] true

/-- Every row built from the unsynced subset stems from a non-boilerplate message
of the list. -/
theorem row_from_nonboilerplate {S : List String} {uid convId : String}
    {messages : List Message} {r : MessageRow}
    (hr : r ∈ (unsyncedOf messages S).map (toRow uid convId)) :
    ∃ m ∈ messages, m.isBoilerplate = false ∧ r.id = m.id ∧ r.content = m.content := by
  obtain ⟨m, hm, rfl⟩ := List.mem_map.mp hr
  have h := List.mem_filter.mp hm
  refine ⟨m, h.1, ?_, rfl, rfl⟩
  have := h.2
  simp [isBoilerplateMessage] at this
  exact this.2

/-- Projections distribute over a conditional result. -/
theorem ops_ite (c : Prop) [Decidable c] (a b : SyncOut) :
    (if c then a else b).ops = if c then a.ops else b.ops := by
  split <;> rfl

/-- Projections distribute over a conditional result. -/
theorem st_ite (c : Prop) [Decidable c] (a b : SyncOut) :
    (if c then a else b).st = if c then a.st else b.st := by
  split <;> rfl

/-- Projections distribute over a conditional state. -/
theorem syncedIds_ite (c : Prop) [Decidable c] (a b : SyncState) :
    (if c then a else b).syncedMessageIds =
      if c then a.syncedMessageIds else b.syncedMessageIds := by
  split <;> rfl

/-- Provenance of upserted rows in the current revision: every row of every
upsert issued by `syncMessages` comes from a non-boilerplate message of the
list. -/
theorem syncMessages_upsert_rows_from (env : SyncEnv) (st : SyncState)
    (messages : List Message) (force : Bool) (rows : List MessageRow) (ok : Bool)
    (hin : RemoteOp.upsert rows ok ∈ (syncMessages env st messages force).ops) :
    ∀ r ∈ rows, ∃ m ∈ messages,
      m.isBoilerplate = false ∧ r.id = m.id ∧ r.content = m.content := by
  intro r hr
  obtain ⟨uu, auth, lookup, nconv, rread, upok⟩ := env
  obtain ⟨cur, synced, syncing, init⟩ := st
  cases uu <;> cases auth <;> cases cur <;> cases nconv <;> cases lookup <;>
    cases init <;> cases upok
  all_goals try simp [syncMessages, resolveConversationId, ensureConversationExists,
    loadSyncedMessages, ops_ite] at hin
  all_goals try split at hin
  all_goals try split at hin
  all_goals try simp at hin
  all_goals first
    | exact hin.elim
    | (obtain ⟨rfl, rfl⟩ := hin; exact row_from_nonboilerplate hr)
    | (obtain ⟨-, rfl, rfl⟩ := hin; exact row_from_nonboilerplate hr)
    | (obtain ⟨-, -, rfl, rfl⟩ := hin; exact row_from_nonboilerplate hr)

/-- Projections distribute over a conditional legacy result. -/
theorem snd_ite (c : Prop) [Decidable c] (a b : Legacy.LegacyState × List RemoteOp) :
    (if c then a else b).2 = if c then a.2 else b.2 := by
  split <;> rfl

/-- Every legacy row built from the filtered unsynced subset stems from a
non-boilerplate message of the list. -/
theorem legacy_row_from_nonboilerplate {S : List String} {p : Message → Bool}
    {uid convId : String} {messages : List Message} {r : MessageRow}
    (hr : r ∈ ((unsyncedOf messages S).filter p).map (Legacy.toRow uid convId)) :
    ∃ m ∈ messages, m.isBoilerplate = false ∧ r.id = m.id := by
  obtain ⟨m, hm, rfl⟩ := List.mem_map.mp hr
  have h1 := List.mem_filter.mp hm
  have h2 := List.mem_filter.mp h1.1
  refine ⟨m, h2.1, ?_, rfl⟩
  have hp := h2.2
  simp [isBoilerplateMessage] at hp
  exact hp.2

/-- A legacy `ensureConversationExists` run never issues an upsert. -/
theorem legacy_ensure_no_upsert (env : Legacy.LegacyEnv) (st : Legacy.LegacyState)
    (rows : List MessageRow) (ok : Bool) :
    RemoteOp.upsert rows ok ∉ (Legacy.ensureConversationExists env st).2.2 := by
  obtain ⟨uu, auth, exu, uiok, slk, cvi, ird, lkp, exr, upok⟩ := env
  obtain ⟨cur, synced, syncing, init, lastc⟩ := st
  cases uu <;> cases auth <;> cases cur <;> cases exu <;> cases uiok <;> cases cvi <;>
    simp [Legacy.ensureConversationExists]

/-- A legacy `initializeSyncedMessages` run never issues an upsert. -/
theorem legacy_init_no_upsert (env : Legacy.LegacyEnv) (st : Legacy.LegacyState)
    (messages : List Message) (rows : List MessageRow) (ok : Bool) :
    RemoteOp.upsert rows ok ∉ (Legacy.initializeSyncedMessages env st messages).2 := by
  have hE := legacy_ensure_no_upsert env st rows ok
  simp only [Legacy.initializeSyncedMessages]
  split
  · split
    · simp
    · split
      · simpa using hE
      · split
        · simpa using hE
        · simp only [List.mem_append]
          rintro (h | h)
          · exact hE h
          · simp at h
  · simp

/-- Rewriting form of `legacy_ensure_no_upsert`. -/
theorem legacy_ensure_no_upsert_iff (env : Legacy.LegacyEnv)
    (st : Legacy.LegacyState) (rows : List MessageRow) (ok : Bool) :
    (RemoteOp.upsert rows ok ∈ (Legacy.ensureConversationExists env st).2.2) ↔ False :=
  iff_false_intro (legacy_ensure_no_upsert env st rows ok)

/-- Rewriting form of `legacy_init_no_upsert`. -/
theorem legacy_init_no_upsert_iff (env : Legacy.LegacyEnv)
    (st : Legacy.LegacyState) (messages : List Message)
    (rows : List MessageRow) (ok : Bool) :
    (RemoteOp.upsert rows ok ∈ (Legacy.initializeSyncedMessages env st messages).2)
      ↔ False :=
  iff_false_intro (legacy_init_no_upsert env st messages rows ok)

set_option maxHeartbeats 1600000 in
/-- Provenance of upserted rows in the legacy revision: every row of every upsert
issued by the legacy `syncMessages` comes from a non-boilerplate message of the
list. -/
theorem legacy_syncMessages_upsert_rows_from (env : Legacy.LegacyEnv)
    (st : Legacy.LegacyState) (messages : List Message) (force : Bool)
    (rows : List MessageRow) (ok : Bool)
    (hin : RemoteOp.upsert rows ok ∈ (Legacy.syncMessages env st messages force).2) :
    ∀ r ∈ rows, ∃ m ∈ messages, m.isBoilerplate = false ∧ r.id = m.id := by
  intro r hr
  obtain ⟨uu, auth, exu, uiok, slk, cvi, ird, lkp, exr, upok⟩ := env
  cases uu <;> cases auth <;> cases lkp <;> cases exr <;> cases upok
  all_goals try simp only [Legacy.syncMessages] at hin
  all_goals try split at hin
  all_goals try split at hin
  all_goals try split at hin
  all_goals try split at hin
  all_goals try split at hin
  all_goals try split at hin
  all_goals try split at hin
  all_goals try simp [legacy_ensure_no_upsert_iff, legacy_init_no_upsert_iff] at hin
  all_goals first
    | exact absurd hin (List.not_mem_nil _)
    | exact hin.elim
    | (obtain ⟨rfl, rfl⟩ := hin; exact legacy_row_from_nonboilerplate hr)
    | (obtain ⟨-, rfl, rfl⟩ := hin; exact legacy_row_from_nonboilerplate hr)
    | (obtain ⟨-, -, rfl, rfl⟩ := hin; exact legacy_row_from_nonboilerplate hr)

/-- The mount effect only ever inserts users or conversations — never message
rows. -/
theorem mountEffect_no_upsert (env : SyncEnv) (st : SyncState)
    (rows : List MessageRow) (ok : Bool) :
    RemoteOp.upsert rows ok ∉ (mountEffect env st).ops := by
  obtain ⟨uu, auth, lookup, nconv, rread, upok⟩ := env
  obtain ⟨cur, synced, syncing, init⟩ := st
  cases uu <;> cases auth <;> cases cur <;> cases nconv <;>
    simp [mountEffect, ensureConversationExists]

/-- Provenance of upserted rows in the conversation-switch effect: only the
forced flush writes, and its rows come from non-boilerplate messages of the
list. -/
theorem switchEffect_upsert_rows_from (env : SyncEnv)
    (loadResult : Option (List String)) (newId : Option String) (st : SyncState)
    (messages : List Message) (rows : List MessageRow) (ok : Bool)
    (hin : RemoteOp.upsert rows ok ∈ (switchEffect env loadResult newId st messages).ops) :
    ∀ r ∈ rows, ∃ m ∈ messages,
      m.isBoilerplate = false ∧ r.id = m.id ∧ r.content = m.content := by
  intro r hr
  obtain ⟨cur, synced, syncing, init⟩ := st
  cases newId <;> cases cur
  all_goals try simp [switchEffect, loadSyncedMessages, ops_ite] at hin
  all_goals try split at hin
  all_goals try split at hin
  all_goals try split at hin
  all_goals first
    | exact hin.elim
    | exact absurd hin (List.not_mem_nil _)
    | exact syncMessages_upsert_rows_from _ _ messages true rows ok hin r hr
    | exact syncMessages_upsert_rows_from _ _ messages true rows ok hin.2.2 r hr
    | exact syncMessages_upsert_rows_from _ _ messages true rows ok hin.2.2.2 r hr
    | (simp at hin)

/-- C4.  No boilerplate message is ever included in a write to the remote
`conversation_messages` store, under any trigger: every row of every upsert
issued by `syncMessages` (debounce calls are `force = false`, unload, visibility
and manual flushes are `force = true`), by the conversation-switch effect, or by
the legacy revision's `syncMessages`, stems from a non-boilerplate message of the
list; the mount effect issues no upsert at all. -/
theorem c4_boilerplate_never_written :
    (∀ (env : SyncEnv) (st : SyncState) (messages : List Message) (force : Bool)
        (rows : List MessageRow) (ok : Bool),
      RemoteOp.upsert rows ok ∈ (syncMessages env st messages force).ops →
      ∀ r ∈ rows, ∃ m ∈ messages,
        m.isBoilerplate = false ∧ r.id = m.id ∧ r.content = m.content)
    ∧ (∀ (env : SyncEnv) (loadResult : Option (List String)) (newId : Option String)
        (st : SyncState) (messages : List Message) (rows : List MessageRow) (ok : Bool),
      RemoteOp.upsert rows ok ∈ (switchEffect env loadResult newId st messages).ops →
      ∀ r ∈ rows, ∃ m ∈ messages,
        m.isBoilerplate = false ∧ r.id = m.id ∧ r.content = m.content)
    ∧ (∀ (env : SyncEnv) (st : SyncState) (rows : List MessageRow) (ok : Bool),
      RemoteOp.upsert rows ok ∉ (mountEffect env st).ops)
    ∧ (∀ (env : Legacy.LegacyEnv) (st : Legacy.LegacyState) (messages : List Message)
        (force : Bool) (rows : List MessageRow) (ok : Bool),
      RemoteOp.upsert rows ok ∈ (Legacy.syncMessages env st messages force).2 →
      ∀ r ∈ rows, ∃ m ∈ messages, m.isBoilerplate = false ∧ r.id = m.id) :=
  ⟨fun env st messages force rows ok hin =>
      syncMessages_upsert_rows_from env st messages force rows ok hin,
    fun env loadResult newId st messages rows ok hin =>
      switchEffect_upsert_rows_from env loadResult newId st messages rows ok hin,
    fun env st rows ok => mountEffect_no_upsert env st rows ok,
    fun env st messages force rows ok hin =>
      legacy_syncMessages_upsert_rows_from env st messages force rows ok hin⟩

/-- Witness for C4 at a concrete input: the row the flush writes next to the
welcome message comes from the real message, not the boilerplate one. -/
theorem c4_witness :
    ∃ m ∈ [welcomeMsg, mA], m.isBoilerplate = false ∧
      (toRow "uid1" "conv1" mA).id = m.id ∧
      (toRow "uid1" "conv1" mA).content = m.content := by
  refine c4_boilerplate_never_written.1
    { userUUID := some "authU", isAuthenticated := true, userLookup := some "uid1",
      newConvId := none, remoteRead := some [], upsertOk := true }
    { currentConversationId := some "conv1", syncedMessageIds := [],
      isSyncing := false, isInitialized := true }
    [welcomeMsg, mA] true [toRow "uid1" "conv1" mA] true ?_
    (toRow "uid1" "conv1" mA) ?_
  · decide
  · decide

/-- C7 counterexample: with an authenticated user, no cached conversation id and
a message list holding only the boilerplate welcome message, the engine still
creates a conversation — the mount effect drives `ensureConversationExists`
unconditionally, and even a forced `syncMessages` resolves the conversation
(inserting a row) before looking at the messages. -/
theorem c7_counterexample :
    ([welcomeMsg].all isBoilerplateMessage = true)
    ∧ RemoteOp.convInsert (some "uid1") (some "newConv") ∈
        (mountEffect
          { userUUID := some "authU", isAuthenticated := true,
            userLookup := some "uid1", newConvId := some "newConv",
            remoteRead := some [], upsertOk := true }
          { currentConversationId := none, syncedMessageIds := [],
            isSyncing := false, isInitialized := false }).ops
    ∧ RemoteOp.convInsert (some "uid1") (some "newConv") ∈
        (syncMessages
          { userUUID := some "authU", isAuthenticated := true,
            userLookup := some "uid1", newConvId := some "newConv",
            remoteRead := some [], upsertOk := true }
          { currentConversationId := none, syncedMessageIds := [],
            isSyncing := false, isInitialized := false }
          [welcomeMsg] true).ops := by
  refine ⟨rfl, ?_, ?_⟩ <;> decide

/-- C7 as amended: conversation creation is eager, not lazy — whenever the user
is authenticated and no conversation id is cached, the mount effect drives
`ensureConversationExists`, which inserts a `conversations` row and caches the
new id regardless of the message list. -/
theorem c7_amended_eager_creation (env : SyncEnv) (st : SyncState) (u nid : String)
    (h1 : env.userUUID = some u) (h2 : env.isAuthenticated = true)
    (h3 : st.currentConversationId = none) (h4 : env.newConvId = some nid) :
    RemoteOp.convInsert env.userLookup (some nid) ∈ (mountEffect env st).ops
    ∧ (mountEffect env st).st.currentConversationId = some nid := by
  obtain ⟨uu, auth, lookup, nconv, rread, upok⟩ := env
  obtain ⟨cur, synced, syncing, init⟩ := st
  simp only at h1 h2 h3 h4
  subst h1 h2 h3 h4
  simp [mountEffect, ensureConversationExists]

/-- Witness for the amended C7 at a concrete input. -/
theorem c7_amended_witness :
    RemoteOp.convInsert (some "uid1") (some "newConv") ∈
      (mountEffect
        { userUUID := some "authU", isAuthenticated := true,
          userLookup := some "uid1", newConvId := some "newConv",
          remoteRead := some [], upsertOk := true }
        { currentConversationId := none, syncedMessageIds := [],
          isSyncing := false, isInitialized := false }).ops := by
  exact (c7_amended_eager_creation
    { userUUID := some "authU", isAuthenticated := true,
      userLookup := some "uid1", newConvId := some "newConv",
      remoteRead := some [], upsertOk := true }
    { currentConversationId := none, syncedMessageIds := [],
      isSyncing := false, isInitialized := false }
    "authU" "newConv" rfl rfl rfl rfl).1

/-- C6 counterexample: a `syncMessages` call whose upsert fails does not always
leave the synced-id set unchanged — when the same call ran the one-time
initialization read first, the set was already replaced wholesale by that read
before the failing upsert. -/
theorem c6_counterexample :
    RemoteOp.upsert [toRow "uid1" "conv1" mA] false ∈
      (syncMessages
        { userUUID := some "authU", isAuthenticated := true,
          userLookup := some "uid1", newConvId := none,
          remoteRead := some [], upsertOk := false }
        { currentConversationId := some "conv1", syncedMessageIds := ["stale"],
          isSyncing := false, isInitialized := false }
        [mA] false).ops
    ∧ (syncMessages
        { userUUID := some "authU", isAuthenticated := true,
          userLookup := some "uid1", newConvId := none,
          remoteRead := some [], upsertOk := false }
        { currentConversationId := some "conv1", syncedMessageIds := ["stale"],
          isSyncing := false, isInitialized := false }
        [mA] false).st.syncedMessageIds ≠ ["stale"] := by
  refine ⟨?_, ?_⟩ <;> decide

/-- C6 as amended: when the remote upsert fails, the failed upsert itself marks
nothing — the synced-id set after the call is either exactly the pre-call set or
exactly the ids the one-time initialization read loaded in the same call; the
failure is only logged (the embedding is total, so no exception reaches the
caller), and the attempted rows are reported with the error log line. -/
theorem c6_amended_failed_upsert_marks_nothing (env : SyncEnv) (st : SyncState)
    (messages : List Message) (force : Bool)
    (hup : env.upsertOk = false) :
    ((syncMessages env st messages force).st.syncedMessageIds = st.syncedMessageIds
      ∨ (syncMessages env st messages force).st.syncedMessageIds
          = env.remoteRead.getD [])
    ∧ (∀ rows, RemoteOp.upsert rows false ∈ (syncMessages env st messages force).ops →
        "Error upserting messages:" ∈ (syncMessages env st messages force).logs) := by
  obtain ⟨uu, auth, lookup, nconv, rread, upok⟩ := env
  obtain ⟨cur, synced, syncing, init⟩ := st
  simp only at hup
  subst hup
  constructor
  · cases uu <;> cases auth <;> cases cur <;> cases nconv <;> cases lookup <;>
      cases init <;> cases syncing <;> cases force
    all_goals try simp [syncMessages, resolveConversationId, ensureConversationExists,
      loadSyncedMessages, st_ite, syncedIds_ite]
    all_goals try split
    all_goals try split
    all_goals first | rfl | simp
  · intro rows hin
    cases uu <;> cases auth <;> cases cur <;> cases nconv <;> cases lookup <;>
      cases init <;> cases syncing <;> cases force
    all_goals try simp [syncMessages, resolveConversationId, ensureConversationExists,
      loadSyncedMessages, ops_ite] at hin
    all_goals try split at hin
    all_goals try split at hin
    all_goals try simp at hin
    all_goals first
      | exact hin.elim
      | (simp [syncMessages, resolveConversationId, ensureConversationExists,
          loadSyncedMessages, ops_ite, hin]
         done)
      | (rename_i hne
         simp [hne]
         done)
      | (simp [syncMessages, resolveConversationId, ensureConversationExists,
          loadSyncedMessages, ops_ite]
         try split <;> simp_all
         done)

/-- Witness for the amended C6 at a concrete input. -/
theorem c6_amended_witness :
    ((syncMessages
        { userUUID := some "authU", isAuthenticated := true,
          userLookup := some "uid1", newConvId := none,
          remoteRead := some [], upsertOk := false }
        { currentConversationId := some "conv1", syncedMessageIds := ["stale"],
          isSyncing := false, isInitialized := false }
        [mA] false).st.syncedMessageIds = ["stale"]
      ∨ (syncMessages
          { userUUID := some "authU", isAuthenticated := true,
            userLookup := some "uid1", newConvId := none,
            remoteRead := some [], upsertOk := false }
          { currentConversationId := some "conv1", syncedMessageIds := ["stale"],
            isSyncing := false, isInitialized := false }
          [mA] false).st.syncedMessageIds = (some ([] : List String)).getD []) := by
  exact (c6_amended_failed_upsert_marks_nothing
    { userUUID := some "authU", isAuthenticated := true,
      userLookup := some "uid1", newConvId := none,
      remoteRead := some [], upsertOk := false }
    { currentConversationId := some "conv1", syncedMessageIds := ["stale"],
      isSyncing := false, isInitialized := false }
    [mA] false rfl).1

/-- Rows built by `toRow` always carry the conversation id they were built
for. -/
theorem toRow_conversation_id {uid convId : String} {l : List Message}
    {r : MessageRow} (hr : r ∈ l.map (toRow uid convId)) :
    r.conversation_id = convId := by
  obtain ⟨m, _, rfl⟩ := List.mem_map.mp hr
  rfl

/-- Closed form of a forced `syncMessages` run from an initialized state with a
cached conversation id, a successful user lookup and a nonempty unsynced
subset. -/
theorem syncMessages_forced_run (env : SyncEnv) (st : SyncState)
    (messages : List Message) (cid u uid : String)
    (h1 : env.userUUID = some u) (h2 : env.isAuthenticated = true)
    (h3 : env.userLookup = some uid)
    (hcur : st.currentConversationId = some cid) (hinit : st.isInitialized = true)
    (hne : unsyncedOf messages st.syncedMessageIds ≠ []) :
    syncMessages env st messages true =
      { st := { st with
          isSyncing := false,
          syncedMessageIds := if env.upsertOk then
              st.syncedMessageIds
                ++ (unsyncedOf messages st.syncedMessageIds).map (fun m => m.id)
            else st.syncedMessageIds },
        ops := [RemoteOp.userSelect u,
          RemoteOp.upsert
            ((unsyncedOf messages st.syncedMessageIds).map (toRow uid cid))
            env.upsertOk],
        logs := if env.upsertOk then ["Synced messages"]
          else ["Error upserting messages:"] } := by
  obtain ⟨uu, auth, lookup, nconv, rread, upok⟩ := env
  obtain ⟨cur, synced, syncing, init⟩ := st
  simp only at h1 h2 h3 hcur hinit
  subst h1 h2 h3 hcur hinit
  have hisE : (unsyncedOf messages synced).isEmpty = false := by
    cases hh : (unsyncedOf messages synced).isEmpty
    · rfl
    · exact absurd (List.isEmpty_iff.mp hh) hne
  have hisE2 : ((unsyncedOf messages synced).map (toRow uid cid)).isEmpty = false := by
    simpa using hisE
  cases upok <;>
    simp [syncMessages, resolveConversationId, hisE, hisE2]

/-- C2.  When the externally supplied conversation id differs from the cached
one (engine initialized, user lookup available), the switch handler (a) issues
writes only against the old conversation id, (b) flushes the whole unsynced
subset in one upsert against the old id, (c) adopts the new id, (d) leaves the
synced-id set exactly as reloaded for the new conversation, and (e) performs the
reload as the last remote operation, so no write follows it. -/
theorem c2_switch_flushes_old_then_reloads (env : SyncEnv)
    (loadResult : Option (List String)) (newId : Option String) (st : SyncState)
    (messages : List Message) (oldId u uid : String)
    (hcur : st.currentConversationId = some oldId)
    (hnew : newId ≠ some oldId)
    (hinit : st.isInitialized = true)
    (h1 : env.userUUID = some u) (h2 : env.isAuthenticated = true)
    (h3 : env.userLookup = some uid) :
    (∀ rows ok,
      RemoteOp.upsert rows ok ∈ (switchEffect env loadResult newId st messages).ops →
      ∀ r ∈ rows, r.conversation_id = oldId)
    ∧ (unsyncedOf messages st.syncedMessageIds ≠ [] →
        RemoteOp.upsert
          ((unsyncedOf messages st.syncedMessageIds).map (toRow uid oldId))
          env.upsertOk ∈ (switchEffect env loadResult newId st messages).ops)
    ∧ (switchEffect env loadResult newId st messages).st.currentConversationId = newId
    ∧ (switchEffect env loadResult newId st messages).st.syncedMessageIds
        = (match newId with | some _ => loadResult.getD [] | none => [])
    ∧ (∀ nid, newId = some nid →
        (switchEffect env loadResult newId st messages).ops.getLast?
          = some (RemoteOp.msgSelect nid)) := by
  have hguard : ¬ newId = st.currentConversationId := by
    rw [hcur]; exact hnew
  by_cases hM : messages.isEmpty = true
  · have hMnil : messages = [] := List.isEmpty_iff.mp hM
    subst hMnil
    cases newId <;>
      refine ⟨?_, ?_, ?_, ?_, ?_⟩ <;>
      simp [switchEffect, loadSyncedMessages, hguard, hnew, hcur, unsyncedOf]
  · by_cases hU : (unsyncedOf messages st.syncedMessageIds).isEmpty = true
    · have hUnil := List.isEmpty_iff.mp hU
      cases newId <;>
        refine ⟨?_, ?_, ?_, ?_, ?_⟩ <;>
        simp [switchEffect, loadSyncedMessages, hguard, hnew, hcur, hM, hU, hUnil]
    · have hUne : unsyncedOf messages st.syncedMessageIds ≠ [] := by
        intro h
        rw [h] at hU
        simp at hU
      have hrun := syncMessages_forced_run env st messages oldId u uid
        h1 h2 h3 hcur hinit hUne
      have hpre : ∀ rows ok,
          RemoteOp.upsert rows ok ∈ (switchEffect env loadResult newId st messages).ops →
          ∀ r ∈ rows, r.conversation_id = oldId := by
        intro rows ok hin r hr
        cases newId <;>
          simp [switchEffect, loadSyncedMessages, hguard, hnew, hcur, hM, hU, hrun] at hin
        all_goals first
          | (rw [hin.1] at hr
             exact toRow_conversation_id hr)
          | (rw [hin.2.1] at hr
             exact toRow_conversation_id hr)
      refine ⟨hpre, ?_, ?_, ?_, ?_⟩ <;>
        cases newId <;>
        simp [switchEffect, loadSyncedMessages, hguard, hnew, hcur, hM, hU, hrun]

/-- Witness for C2 at a concrete input: switching away from a conversation with
one unsynced message flushes it to the old id and reloads the set for the new
one. -/
theorem c2_witness :
    (RemoteOp.upsert [toRow "uid1" "oldConv" mA] true ∈
      (switchEffect
        { userUUID := some "authU", isAuthenticated := true, userLookup := some "uid1",
          newConvId := none, remoteRead := some [], upsertOk := true }
        (some ["r1", "r2"]) (some "newConv")
        { currentConversationId := some "oldConv", syncedMessageIds := [],
          isSyncing := false, isInitialized := true }
        [mA]).ops)
    ∧ (switchEffect
        { userUUID := some "authU", isAuthenticated := true, userLookup := some "uid1",
          newConvId := none, remoteRead := some [], upsertOk := true }
        (some ["r1", "r2"]) (some "newConv")
        { currentConversationId := some "oldConv", syncedMessageIds := [],
          isSyncing := false, isInitialized := true }
        [mA]).st.syncedMessageIds = ["r1", "r2"] := by
  have h := c2_switch_flushes_old_then_reloads
    { userUUID := some "authU", isAuthenticated := true, userLookup := some "uid1",
      newConvId := none, remoteRead := some [], upsertOk := true }
    (some ["r1", "r2"]) (some "newConv")
    { currentConversationId := some "oldConv", syncedMessageIds := [],
      isSyncing := false, isInitialized := true }
    [mA] "oldConv" "authU" "uid1" rfl (by decide) rfl rfl rfl rfl
  exact ⟨by simpa using h.2.1 (by decide), by simpa using h.2.2.2.1⟩

/-- Initial configuration for the C1 counterexample: authenticated session,
an active initialized conversation, no sync in flight. -/
def c1Cfg : MachineConfig :=
  { authId := some "authU", isAuthenticated := true,
    st := { currentConversationId := some "conv1", syncedMessageIds := [],
            isSyncing := false, isInitialized := true },
    tasks := [], nextTid := 0, writes := [] }

/-- Scheduler trace for the C1 counterexample: a non-forced sync of `[mA]`
suspends at its user lookup; a forced sync of `[mA, mB]` arrives while it is in
flight, is not dropped, and runs to completion; then the stale superseded call
resumes and its upsert still completes — nothing cancelled it. -/
def c1Trace : List MachineEv :=
  [MachineEv.call false [mA],
    MachineEv.call true [mA, mB],
    MachineEv.userRes 1 (some "uid1"),
    MachineEv.upsertRes 1 true,
    MachineEv.userRes 0 (some "uid1"),
    MachineEv.upsertRes 0 true]

/-- C1 counterexample: the claimed cancellation guarantee fails on a concrete
execution — after the forced call finishes, the superseded in-flight call still
completes a write (the final write list contains a write tagged as coming from a
superseded task). -/
theorem c1_counterexample : ¬ cancellationProp c1Cfg c1Trace := by
  simp only [cancellationProp]
  decide

/-- C1 as amended: the re-entrancy guard drops a second non-forced call
unchanged (no state change, no task, no read or write) in the interleaved
machine, in the current revision's `syncMessages` and in the legacy revision's;
a forced call arriving while a sync is in flight proceeds but does NOT cancel
the in-flight operation — every pending task survives the forced call (at most
ghost-marked superseded), free to complete its write later. -/
theorem c1_guard_drops_but_never_cancels :
    (∀ (cfg : MachineConfig) (msgs : List Message), cfg.st.isSyncing = true →
      machineStep cfg (MachineEv.call false msgs) = cfg)
    ∧ (∀ (env : SyncEnv) (st : SyncState) (messages : List Message),
        st.isSyncing = true →
        syncMessages env st messages false = { st := st, ops := [], logs := [] })
    ∧ (∀ (env : Legacy.LegacyEnv) (st : Legacy.LegacyState) (messages : List Message),
        st.isSyncing = true →
        Legacy.syncMessages env st messages false = (st, []))
    ∧ (∀ (cfg : MachineConfig) (msgs : List Message) (t : SyncTask), t ∈ cfg.tasks →
        ∃ t' ∈ (machineStep cfg (MachineEv.call true msgs)).tasks,
          t'.tid = t.tid ∧ t'.pc = t.pc ∧ t'.force = t.force ∧ t'.msgs = t.msgs) := by
  refine ⟨?_, ?_, ?_, ?_⟩
  · intro cfg msgs h
    obtain ⟨aid, auth, st, tasks, ntid, writes⟩ := cfg
    obtain ⟨cur, synced, syncing, init⟩ := st
    simp only at h
    subst h
    cases aid <;> cases auth <;> simp [machineStep]
  · intro env st messages h
    obtain ⟨uu, auth, lookup, nconv, rread, upok⟩ := env
    obtain ⟨cur, synced, syncing, init⟩ := st
    simp only at h
    subst h
    cases uu <;> cases auth <;> simp [syncMessages]
  · intro env st messages h
    obtain ⟨uu, auth, exu, uiok, slk, cvi, ird, lkp, exr, upok⟩ := env
    obtain ⟨cur, synced, syncing, init, lastc⟩ := st
    simp only at h
    subst h
    cases uu <;> cases auth <;> simp [Legacy.syncMessages]
  · intro cfg msgs t ht
    obtain ⟨aid, auth, st, tasks, ntid, writes⟩ := cfg
    obtain ⟨cur, synced, syncing, init⟩ := st
    simp only at ht
    cases aid
    · exact ⟨t, by simpa [machineStep] using ht, rfl, rfl, rfl, rfl⟩
    cases auth
    · exact ⟨t, by simpa [machineStep] using ht, rfl, rfl, rfl, rfl⟩
    cases syncing
    · cases cur
      · exact ⟨t, by simp [machineStep, List.mem_append, ht], rfl, rfl, rfl, rfl⟩
      · cases init
        · exact ⟨t,
            by simp [machineStep, contAfterConv, List.mem_append, ht], rfl, rfl, rfl, rfl⟩
        · exact ⟨t,
            by simp [machineStep, contAfterConv, contFilter, List.mem_append, ht],
            rfl, rfl, rfl, rfl⟩
    · refine ⟨{ t with superseded := true }, ?_, rfl, rfl, rfl, rfl⟩
      cases cur
      · simp [machineStep]
        exact ⟨t, ht, rfl, rfl, rfl, rfl⟩
      · cases init
        · simp [machineStep, contAfterConv]
          exact ⟨t, ht, rfl, rfl, rfl, rfl⟩
        · simp [machineStep, contAfterConv, contFilter]
          exact ⟨t, ht, rfl, rfl, rfl, rfl⟩

/-- Witness for the amended C1 at a concrete input: with a sync in flight, a
non-forced call is a no-op, and a forced call leaves the in-flight task
pending. -/
theorem c1_amended_witness :
    (machineStep
      { authId := some "authU", isAuthenticated := true,
        st := { currentConversationId := some "conv1", syncedMessageIds := [],
                isSyncing := true, isInitialized := true },
        tasks := [{ tid := 0, superseded := false, force := false, msgs := [mA],
                    pc := TaskPC.userSel "conv1" [mA] }],
        nextTid := 1, writes := [] }
      (MachineEv.call false [mA]) =
      { authId := some "authU", isAuthenticated := true,
        st := { currentConversationId := some "conv1", syncedMessageIds := [],
                isSyncing := true, isInitialized := true },
        tasks := [{ tid := 0, superseded := false, force := false, msgs := [mA],
                    pc := TaskPC.userSel "conv1" [mA] }],
        nextTid := 1, writes := [] })
    ∧ (∃ t' ∈ (machineStep
        { authId := some "authU", isAuthenticated := true,
          st := { currentConversationId := some "conv1", syncedMessageIds := [],
                  isSyncing := true, isInitialized := true },
          tasks := [{ tid := 0, superseded := false, force := false, msgs := [mA],
                      pc := TaskPC.userSel "conv1" [mA] }],
          nextTid := 1, writes := [] }
        (MachineEv.call true [mA, mB])).tasks,
        t'.tid = 0 ∧ t'.pc = TaskPC.userSel "conv1" [mA] ∧ t'.force = false
          ∧ t'.msgs = [mA]) := by
  constructor
  · exact c1_guard_drops_but_never_cancels.1
      { authId := some "authU", isAuthenticated := true,
        st := { currentConversationId := some "conv1", syncedMessageIds := [],
                isSyncing := true, isInitialized := true },
        tasks := [{ tid := 0, superseded := false, force := false, msgs := [mA],
                    pc := TaskPC.userSel "conv1" [mA] }],
        nextTid := 1, writes := [] } [mA] rfl
  · exact c1_guard_drops_but_never_cancels.2.2.2
      { authId := some "authU", isAuthenticated := true,
        st := { currentConversationId := some "conv1", syncedMessageIds := [],
                isSyncing := true, isInitialized := true },
        tasks := [{ tid := 0, superseded := false, force := false, msgs := [mA],
                    pc := TaskPC.userSel "conv1" [mA] }],
        nextTid := 1, writes := [] } [mA, mB]
      { tid := 0, superseded := false, force := false, msgs := [mA],
        pc := TaskPC.userSel "conv1" [mA] } (by decide)

/-- C8: with non-blank (after trimming) input and no call in flight, one request
is issued carrying the raw input, the last at-most-20 prior messages reduced to
content/sender, and the most recent non-boilerplate assistant message's
continuation token (none when absent); on success the appended assistant message
carries the returned `response_id` and loading returns to false. -/
theorem c8_send_request_shape (inputMessage : String) (messages : List Message)
    (newMsgId botMsgId : String) (now botNow : Nat) (resp : QueryResponse)
    (h : ¬ trimString inputMessage = "") :
    (handleSendMessage inputMessage false messages newMsgId now (some resp)
        botMsgId botNow).request =
      some { user_input := inputMessage,
             message_history := sliceLast 20 (messages.map simplifyMessage),
             previous_response_id := lastAiResponseId messages }
    ∧ (sliceLast 20 (messages.map simplifyMessage)).length ≤ 20
    ∧ List.IsSuffix (sliceLast 20 (messages.map simplifyMessage))
        (messages.map simplifyMessage)
    ∧ (handleSendMessage inputMessage false messages newMsgId now (some resp)
        botMsgId botNow).messages =
      messages ++
        [{ id := newMsgId, content := inputMessage, sender := Sender.user,
           timestamp := now, isBoilerplate := false, response_id := none },
         { id := botMsgId, content := resp.response, sender := Sender.ai,
           timestamp := botNow, isBoilerplate := false,
           response_id := orNull resp.response_id }]
    ∧ (handleSendMessage inputMessage false messages newMsgId now (some resp)
        botMsgId botNow).isLoading = false := by
  refine ⟨?_, ?_, ?_, ?_, ?_⟩
  · simp [handleSendMessage, h]
  · simp only [sliceLast, List.length_drop]
    omega
  · exact List.drop_suffix _ _
  · simp [handleSendMessage, h]
  · simp [handleSendMessage, h]

/-- Witness for C8 at a concrete input: sending "Hi" with an empty history
issues the request with empty history and no continuation token, and appends
the user message and the assistant reply carrying token "r1". -/
theorem c8_witness :
    ¬ (trimString "Hi" = "")
    ∧ ((handleSendMessage "Hi" false [] "u1" 5
          (some { response := "ok", response_id := some "r1" }) "b1" 6).request =
        some { user_input := "Hi",
               message_history := sliceLast 20 (([] : List Message).map simplifyMessage),
               previous_response_id := lastAiResponseId [] }
      ∧ (sliceLast 20 (([] : List Message).map simplifyMessage)).length ≤ 20
      ∧ List.IsSuffix (sliceLast 20 (([] : List Message).map simplifyMessage))
          (([] : List Message).map simplifyMessage)
      ∧ (handleSendMessage "Hi" false [] "u1" 5
          (some { response := "ok", response_id := some "r1" }) "b1" 6).messages =
        ([] : List Message) ++
          [{ id := "u1", content := "Hi", sender := Sender.user,
             timestamp := 5, isBoilerplate := false, response_id := none },
           { id := "b1", content := "ok", sender := Sender.ai,
             timestamp := 6, isBoilerplate := false,
             response_id := orNull (some "r1") }]
      ∧ (handleSendMessage "Hi" false [] "u1" 5
          (some { response := "ok", response_id := some "r1" }) "b1" 6).isLoading
          = false) :=
  ⟨by decide,
    c8_send_request_shape "Hi" [] "u1" "b1" 5 6
      { response := "ok", response_id := some "r1" } (by decide)⟩

/-- After a failed send, the message list ends in the optimistic user message
followed by the apology; the apology is assistant-authored, non-boilerplate and
carries no token, so the most-recent-assistant-token computation yields none. -/
theorem lastAiResponseId_after_failure (messages : List Message)
    (input newId botId : String) (t1 t2 : Nat) :
    lastAiResponseId
      (messages ++
        [{ id := newId, content := input, sender := Sender.user, timestamp := t1,
           isBoilerplate := false, response_id := none },
         { id := botId, content := apologyText, sender := Sender.ai, timestamp := t2,
           isBoilerplate := false, response_id := none }]) = none := by
  simp [lastAiResponseId, List.filter_append, List.getLast?_concat, orNull]

/-- An assistant message with a continuation token, used by witnesses to show
the token chain existed before the failure reset it. -/
def mTok : Message :=
  { id := "tok", content := "prior answer", sender := Sender.ai, timestamp := 1,
    isBoilerplate := false, response_id := some "r1" }

/-- C9: after a failed completion call appends the apology fallback, the next
send's request carries no `previous_response_id` — for every prior message list,
even one whose assistant messages hold continuation tokens, the apology is the
most recent non-boilerplate assistant message and its absent token (collapsed by
`|| null`) resets the continuation chain. -/
theorem c9_apology_resets_continuation (messages : List Message)
    (input1 input2 newId1 botId1 newId2 botId2 : String)
    (t1 t2 t3 t4 : Nat) (resp2 : QueryResponse)
    (h1 : ¬ trimString input1 = "") (h2 : ¬ trimString input2 = "") :
    (handleSendMessage input2 false
        (handleSendMessage input1 false messages newId1 t1 none botId1 t2).messages
        newId2 t3 (some resp2) botId2 t4).request =
      some { user_input := input2,
             message_history := sliceLast 20
               ((handleSendMessage input1 false messages newId1 t1 none
                   botId1 t2).messages.map simplifyMessage),
             previous_response_id := none } := by
  have hmsgs : (handleSendMessage input1 false messages newId1 t1 none
      botId1 t2).messages =
      messages ++
        [{ id := newId1, content := input1, sender := Sender.user, timestamp := t1,
           isBoilerplate := false, response_id := none },
         { id := botId1, content := apologyText, sender := Sender.ai, timestamp := t2,
           isBoilerplate := false, response_id := none }] := by
    simp [handleSendMessage, h1]
  rw [hmsgs]
  simp [handleSendMessage, h2, lastAiResponseId_after_failure]

/-- Witness for C9 at a concrete input: the history holds an assistant message
with token "r1"; the first send fails, and the follow-up request carries no
continuation token. -/
theorem c9_witness :
    ¬ (trimString "one" = "") ∧ ¬ (trimString "two" = "")
    ∧ (handleSendMessage "two" false
        (handleSendMessage "one" false [mTok] "u1" 2 none "b1" 3).messages
        "u2" 4 (some { response := "ok", response_id := some "r2" }) "b2" 5).request =
      some { user_input := "two",
             message_history := sliceLast 20
               ((handleSendMessage "one" false [mTok] "u1" 2 none
                   "b1" 3).messages.map simplifyMessage),
             previous_response_id := none } :=
  ⟨by decide, by decide,
    c9_apology_resets_continuation [mTok] "one" "two" "u1" "b1" "u2" "b2" 2 3 4 5
      { response := "ok", response_id := some "r2" } (by decide) (by decide)⟩

end CompanionAI
